import Mathlib

/-!
Shallow embedding of src/coreweave/virtual_server.py (class VirtualServerClient).

The embedding models the pure data flow of the watcher:
Python dicts with possibly-missing keys become structures with Option fields,
uncaught Python exceptions (KeyError, IndexError, TypeError, ValueError)
become an explicit error type, and the event stream consumed by the
for-loop in VirtualServerClient.ready becomes a finite list of the events
the stream delivers before it closes.
-/

/-- A raw status condition as reported on the watched object: a Python dict
whose keys reason, status, type may each be absent. -/
structure Condition where
  reason : Option String
  status : Option String
  type : Option String
deriving DecidableEq, Repr

/-- One entry of VirtualServerClient.EXPECTED_CONDITIONS: the exact triple a
vocabulary outcome expects. -/
structure ExpectedCondition where
  reason : String
  status : String
  type : String
deriving DecidableEq, Repr

/-- VirtualServerClient.EXPECTED_CONDITIONS (virtual_server.py lines 16 to 32):
the fixed vocabulary mapping an outcome name to its expected triple. -/
def EXPECTED_CONDITIONS : String → Option ExpectedCondition
  | "Stopped" => some ⟨"VirtualServerStopped", "False", "Ready"⟩
  | "Ready" => some ⟨"VirtualServerReady", "True", "Ready"⟩
  | "Terminating" => some ⟨"Terminating", "False", "Ready"⟩
  | _ => none

/-- VirtualServerClient.GROUP. -/
def GROUP : String := "virtualservers.coreweave.com"

/-- VirtualServerClient.VERSION. -/
def VERSION : String := "v1alpha1"

/-- VirtualServerClient.PLURAL. -/
def PLURAL : String := "virtualservers"

/-- VirtualServerClient.match_condition (virtual_server.py lines 74 to 82):
if expected_status is a registered vocabulary name and the condition dict has
the keys reason, status, type with exactly the expected values, return the
requested name, else return None. -/
def match_condition (condition : Condition) (expected_status : String) : Option String :=
  match EXPECTED_CONDITIONS expected_status with
  | some c =>
      if condition.reason = some c.reason ∧ condition.status = some c.status ∧
          condition.type = some c.type then
        some expected_status
      else
        none
  | none => none

/-- The network sub-dict of a status: the externalIP key may be absent. -/
structure NetworkInfo where
  externalIP : Option String
deriving DecidableEq, Repr

/-- The status dict of the watched object, as read by ready
(virtual_server.py line 105): the conditions key and the network key may
each be absent. -/
structure ObjectStatus where
  conditions : Option (List Condition)
  network : Option NetworkInfo
deriving DecidableEq, Repr

/-- One raw watch event. The source reads the type key of the event and the
status of the carried object through a .get with default empty dict, so the
status is always available as a (possibly empty) dict. -/
structure Event where
  type : String
  status : ObjectStatus
deriving DecidableEq, Repr

/-- An uncaught Python exception raised by the loop body of ready: indexing
an empty conditions list, or reading a missing network or externalIP key. -/
inductive PyError where
  | indexError : PyError
  | keyError : String → PyError
deriving DecidableEq, Repr

/-- How one iteration of the for-loop in the inner function of
VirtualServerClient.ready (virtual_server.py lines 93 to 124) exits the loop. -/
inductive LoopOutcome where
  | resolvedReady : String → LoopOutcome
  | resolvedOther : String → LoopOutcome
  | deleted : LoopOutcome
  | raised : PyError → LoopOutcome
  | streamEnded : LoopOutcome
deriving DecidableEq, Repr

/-- One iteration of the loop body in ready (virtual_server.py lines 105 to
124), on a single event: some o means the loop exits with outcome o (the
source calls w.stop and breaks, returns, or raises), none means the loop
continues with the next event. -/
def loopStep (expected_status : String) (e : Event) : Option LoopOutcome :=
  if e.type = "DELETE" then
    some .deleted
  else
    match e.status.conditions with
    | none => none
    | some [] => some (.raised .indexError)
    | some (c :: _) =>
        match match_condition c expected_status with
        | none => none
        | some rc =>
            if rc = "Ready" then
              match e.status.network with
              | none => some (.raised (.keyError "network"))
              | some net =>
                  match net.externalIP with
                  | none => some (.raised (.keyError "externalIP"))
                  | some ip => some (.resolvedReady ip)
            else if rc = "Stopped" ∨ rc = "Terminating" then
              some (.resolvedOther rc)
            else
              none

/-- The whole for-loop of the inner function of ready, over the finite list of
events the watch stream delivers before it closes: the first iteration that
exits the loop decides the outcome, and an exhausted stream while still
waiting is streamEnded. -/
def runLoop (expected_status : String) : List Event → LoopOutcome
  | [] => .streamEnded
  | e :: rest =>
      match loopStep expected_status e with
      | some o => o
      | none => runLoop expected_status rest

/-- The value the inner function of ready returns on the Ready path:
the dict with the single key ip. -/
structure WaitResult where
  ip : String
deriving DecidableEq, Repr

/-- The caller-visible result of VirtualServerClient.ready: the inner
function returns the ip dict on the Ready path, falls off its end (returning
None) on the deleted, stopped, terminating and stream-end paths, and lets a
Python exception propagate otherwise. -/
def ready (expected_status : String) (events : List Event) :
    Except PyError (Option WaitResult) :=
  match runLoop expected_status events with
  | .resolvedReady ip => .ok (some ⟨ip⟩)
  | .resolvedOther _ => .ok none
  | .deleted => .ok none
  | .streamEnded => .ok none
  | .raised e => .error e

/-- The metadata dict of a manifest: the name and namespace keys may be
absent, and the dict may hold further keys, which only matter for its Python
truthiness. -/
structure Metadata where
  name : Option String
  namespace_ : Option String
  hasOtherKeys : Bool
deriving DecidableEq, Repr

/-- Python truthiness of the metadata dict: a dict is truthy iff non-empty. -/
def metadataTruthy (md : Metadata) : Bool :=
  md.name.isSome || md.namespace_.isSome || md.hasOtherKeys

/-- A manifest, as far as VirtualServerClient.create reads it: the metadata
key may be absent. -/
structure Manifest where
  metadata : Option Metadata
deriving DecidableEq, Repr

/-- An exception raised by VirtualServerClient.create before the gateway
call: a missing dict key, the explicit TypeError on empty metadata, or the
explicit ValueError on an empty name or namespace. -/
inductive CreateError where
  | keyError : String → CreateError
  | typeError : CreateError
  | valueError : CreateError
deriving DecidableEq, Repr

/-- The namespaced request create hands to the resource gateway; it is only
built after all validation passed. -/
structure CreateRequest where
  group : String
  version : String
  namespace_ : String
  plural : String
deriving DecidableEq, Repr

/-- VirtualServerClient.create (virtual_server.py lines 40 to 55): reading a
missing metadata key raises KeyError, a falsy metadata dict raises TypeError,
a missing namespace or name key raises KeyError, an empty namespace or name
string raises ValueError; only then is the gateway request made. -/
def create (manifest : Manifest) : Except CreateError CreateRequest :=
  match manifest.metadata with
  | none => .error (.keyError "metadata")
  | some md =>
      if metadataTruthy md = false then
        .error .typeError
      else
        match md.namespace_ with
        | none => .error (.keyError "namespace")
        | some ns =>
            match md.name with
            | none => .error (.keyError "name")
            | some nm =>
                if ns = "" ∨ nm = "" then
                  .error .valueError
                else
                  .ok ⟨GROUP, VERSION, ns, PLURAL⟩

/-! Concrete events used by witnesses and counterexamples. -/

/-- The exact triple the Terminating vocabulary entry expects, as a raw
condition. -/
def termCond : Condition := ⟨some "Terminating", some "False", some "Ready"⟩

/-- The exact triple the Stopped vocabulary entry expects, as a raw
condition. -/
def stoppedCond : Condition := ⟨some "VirtualServerStopped", some "False", some "Ready"⟩

/-- The exact triple the Ready vocabulary entry expects, as a raw
condition. -/
def readyCond : Condition := ⟨some "VirtualServerReady", some "True", some "Ready"⟩

/-- A modification event whose first condition is the Terminating triple. -/
def termEvent : Event := ⟨"MODIFIED", ⟨some [termCond], none⟩⟩

/-- A modification event whose first condition is the Stopped triple. -/
def stoppedEvent : Event := ⟨"MODIFIED", ⟨some [stoppedCond], none⟩⟩

/-- A deletion event. -/
def deleteEvent : Event := ⟨"DELETE", ⟨none, none⟩⟩

/-- A modification event matching Ready, with network info and an
external IP. -/
def readyEventOk : Event := ⟨"MODIFIED", ⟨some [readyCond], some ⟨some "10.0.0.5"⟩⟩⟩

/-- A modification event matching Ready but with no network key at all. -/
def readyEventNoNet : Event := ⟨"MODIFIED", ⟨some [readyCond], none⟩⟩

/-- A modification event whose conditions key is present but empty. -/
def emptyCondEvent : Event := ⟨"MODIFIED", ⟨some [], none⟩⟩

/-- An addition event carrying no status keys at all. -/
def noStatusEvent : Event := ⟨"ADDED", ⟨none, none⟩⟩

/-- C1: requesting Ready while the incoming first condition is exactly the
Terminating vocabulary triple: match_condition compares only against the
requested outcome, so the event yields no match, the loop keeps waiting
through it, and the call never resolves to Terminating — contradicting the
stated requirement that the watch surface the other terminal outcome. -/
theorem c1_ready_request_ignores_terminating :
    match_condition termCond "Terminating" = some "Terminating" ∧
    match_condition termCond "Ready" = none ∧
    runLoop "Ready" [termEvent] = LoopOutcome.streamEnded ∧
    ready "Ready" [termEvent] = Except.ok none :=
  ⟨rfl, rfl, rfl, rfl⟩

/-- C2: the decided outcome is absorbing: once the loop has decided on a
prefix of the stream (any exit other than running off the end while still
waiting), appending further events never changes the decision, so each watch
produces at most one resolution. -/
theorem c2_terminal_states_absorbing (expected_status : String)
    (evs1 evs2 : List Event)
    (h : runLoop expected_status evs1 ≠ LoopOutcome.streamEnded) :
    runLoop expected_status (evs1 ++ evs2) = runLoop expected_status evs1 := by
  induction evs1 with
  | nil => exact absurd rfl h
  | cons e rest ih =>
      simp only [List.cons_append, runLoop] at h ⊢
      cases hs : loopStep expected_status e with
      | some o => simp only [hs]
      | none =>
          simp only [hs] at h ⊢
          exact ih h

/-- Witness for C2 at a concrete input: a deletion decides the watch and a
later Ready event does not change the decision. -/
theorem c2_terminal_states_absorbing_witness :
    runLoop "Ready" [deleteEvent] ≠ LoopOutcome.streamEnded ∧
    runLoop "Ready" ([deleteEvent] ++ [readyEventOk]) = runLoop "Ready" [deleteEvent] :=
  ⟨by decide, c2_terminal_states_absorbing "Ready" [deleteEvent] [readyEventOk] (by decide)⟩

/-- C3 counterexample: a non-deletion event whose conditions key is present
but an empty list makes the loop index an empty list, so the call raises
IndexError instead of yielding no match and waiting. -/
theorem c3_empty_conditions_counterexample :
    emptyCondEvent.type ≠ "DELETE" ∧
    ready "Ready" [emptyCondEvent] = Except.error PyError.indexError :=
  ⟨by decide, rfl⟩

/-- C3 amended: a non-deletion event with no conditions key at all yields no
match and no error: the loop simply continues with the next event. -/
theorem c3_missing_conditions_keeps_waiting (expected_status : String) (e : Event)
    (rest : List Event) (h1 : e.type ≠ "DELETE") (h2 : e.status.conditions = none) :
    loopStep expected_status e = none ∧
    runLoop expected_status (e :: rest) = runLoop expected_status rest := by
  have hstep : loopStep expected_status e = none := by
    unfold loopStep
    rw [if_neg h1, h2]
  exact ⟨hstep, by simp only [runLoop, hstep]⟩

/-- Witness for the amended C3 at a concrete input: an event with no status
keys is skipped and the watch goes on to resolve on the next event. -/
theorem c3_missing_conditions_keeps_waiting_witness :
    noStatusEvent.type ≠ "DELETE" ∧ noStatusEvent.status.conditions = none ∧
    (loopStep "Ready" noStatusEvent = none ∧
      runLoop "Ready" (noStatusEvent :: [readyEventOk]) = runLoop "Ready" [readyEventOk]) :=
  ⟨by decide, rfl,
    c3_missing_conditions_keeps_waiting "Ready" noStatusEvent [readyEventOk] (by decide) rfl⟩

/-- C4: an event whose first condition matches the Ready outcome but whose
status has no network key, or a network dict without an externalIP key,
makes the call fail with a KeyError — the malformed-event failure — rather
than keep waiting or resolve with an empty IP. -/
theorem c4_ready_match_missing_network_fails (expected_status : String) (e : Event)
    (rest : List Event) (c : Condition) (cs : List Condition)
    (h1 : e.type ≠ "DELETE")
    (h2 : e.status.conditions = some (c :: cs))
    (h3 : match_condition c expected_status = some "Ready")
    (h4 : e.status.network = none ∨
      ∃ net, e.status.network = some net ∧ net.externalIP = none) :
    ∃ k, ready expected_status (e :: rest) = Except.error (PyError.keyError k) := by
  obtain ⟨ty, st⟩ := e
  obtain ⟨conds, net⟩ := st
  simp only at h1 h2 h4
  subst h2
  rcases h4 with h4 | ⟨net0, hnet, hip⟩
  · subst h4
    exact ⟨"network", by simp [ready, runLoop, loopStep, h1, h3]⟩
  · subst hnet
    obtain ⟨ipo⟩ := net0
    simp only at hip
    subst hip
    exact ⟨"externalIP", by simp [ready, runLoop, loopStep, h1, h3]⟩

/-- Witness for C4 at a concrete input: a Ready-matching event with no
network key fails with a KeyError. -/
theorem c4_ready_match_missing_network_fails_witness :
    readyEventNoNet.type ≠ "DELETE" ∧
    ∃ k, ready "Ready" [readyEventNoNet] = Except.error (PyError.keyError k) :=
  ⟨by decide,
    c4_ready_match_missing_network_fails "Ready" readyEventNoNet [] readyCond []
      (by decide) rfl rfl (Or.inl rfl)⟩

/-- C5 counterexample: requesting the unregistered outcome name Bogus raises
no error at all: match_condition returns None for every condition, the watch
proceeds and simply never resolves by matching. -/
theorem c5_unknown_outcome_counterexample :
    EXPECTED_CONDITIONS "Bogus" = none ∧
    match_condition readyCond "Bogus" = none ∧
    runLoop "Bogus" [readyEventOk] = LoopOutcome.streamEnded ∧
    ready "Bogus" [readyEventOk] = Except.ok none :=
  ⟨rfl, rfl, rfl, rfl⟩

/-- C5 amended: an unregistered target outcome name is not an error: the
matcher just returns None on every condition, so the watch keeps waiting. -/
theorem c5_unknown_outcome_never_matches (name : String) (c : Condition)
    (h : EXPECTED_CONDITIONS name = none) :
    match_condition c name = none := by
  unfold match_condition
  rw [h]

/-- Witness for the amended C5 at a concrete input. -/
theorem c5_unknown_outcome_never_matches_witness :
    EXPECTED_CONDITIONS "Bogus" = none ∧ match_condition termCond "Bogus" = none :=
  ⟨rfl, c5_unknown_outcome_never_matches "Bogus" termCond rfl⟩

/-- C6 counterexample: a deleted watch and a watch resolving to Stopped both
return None to the caller, so the Deleted outcome is not distinguishable by
the caller from every other terminal result. -/
theorem c6_deleted_counterexample :
    runLoop "Ready" [deleteEvent] = LoopOutcome.deleted ∧
    runLoop "Stopped" [stoppedEvent] = LoopOutcome.resolvedOther "Stopped" ∧
    ready "Ready" [deleteEvent] = Except.ok none ∧
    ready "Stopped" [stoppedEvent] = Except.ok none :=
  ⟨rfl, rfl, rfl, rfl⟩

/-- C6 amended: a deletion mid-watch takes its own internal loop exit, and
the call then returns None — the same caller-visible value as a Stopped or
Terminating resolution — exactly once. -/
theorem c6_deleted_watch_returns_none (expected_status : String) (events : List Event)
    (h : runLoop expected_status events = LoopOutcome.deleted) :
    ready expected_status events = Except.ok none := by
  unfold ready
  rw [h]

/-- Witness for the amended C6 at a concrete input. -/
theorem c6_deleted_watch_returns_none_witness :
    runLoop "Ready" [deleteEvent] = LoopOutcome.deleted ∧
    ready "Ready" [deleteEvent] = Except.ok none :=
  ⟨rfl, c6_deleted_watch_returns_none "Ready" [deleteEvent] rfl⟩

/-- Helper: for a registered outcome name, the matcher reduces to the
three-field comparison against the expected triple. -/
theorem match_condition_eq_ite (c : Condition) (name : String) (ec : ExpectedCondition)
    (h : EXPECTED_CONDITIONS name = some ec) :
    match_condition c name =
      if c.reason = some ec.reason ∧ c.status = some ec.status ∧ c.type = some ec.type
      then some name else none := by
  unfold match_condition
  rw [h]

/-- C7: for a registered outcome, a condition matches iff its reason, status
and type keys are present and equal the expected triple; any mismatch yields
no match; and the expected triple itself always matches its own entry. -/
theorem c7_match_iff (name : String) (ec : ExpectedCondition) (c : Condition)
    (h : EXPECTED_CONDITIONS name = some ec) :
    (match_condition c name = some name ↔
      (c.reason = some ec.reason ∧ c.status = some ec.status ∧ c.type = some ec.type)) ∧
    (match_condition c name = none ↔
      ¬ (c.reason = some ec.reason ∧ c.status = some ec.status ∧ c.type = some ec.type)) ∧
    match_condition ⟨some ec.reason, some ec.status, some ec.type⟩ name = some name := by
  rw [match_condition_eq_ite c name ec h,
    match_condition_eq_ite ⟨some ec.reason, some ec.status, some ec.type⟩ name ec h]
  refine ⟨?_, ?_, ?_⟩
  · by_cases hc : (c.reason = some ec.reason ∧ c.status = some ec.status ∧ c.type = some ec.type)
    · rw [if_pos hc]; simp [hc]
    · rw [if_neg hc]; simp [hc]
  · by_cases hc : (c.reason = some ec.reason ∧ c.status = some ec.status ∧ c.type = some ec.type)
    · rw [if_pos hc]; simp [hc]
    · rw [if_neg hc]; simp [hc]
  · exact if_pos ⟨rfl, rfl, rfl⟩

/-- Witness for C7 at a concrete input: the Ready entry, checked against the
Terminating triple (no match) and against its own triple (match). -/
theorem c7_match_iff_witness :
    EXPECTED_CONDITIONS "Ready" = some ⟨"VirtualServerReady", "True", "Ready"⟩ ∧
    ((match_condition termCond "Ready" = some "Ready" ↔
        (termCond.reason = some "VirtualServerReady" ∧ termCond.status = some "True" ∧
          termCond.type = some "Ready")) ∧
      (match_condition termCond "Ready" = none ↔
        ¬ (termCond.reason = some "VirtualServerReady" ∧ termCond.status = some "True" ∧
          termCond.type = some "Ready")) ∧
      match_condition ⟨some "VirtualServerReady", some "True", some "Ready"⟩ "Ready" =
        some "Ready") :=
  ⟨rfl, c7_match_iff "Ready" ⟨"VirtualServerReady", "True", "Ready"⟩ termCond rfl⟩

/-- C8 counterexample: the source has no deadline: a stream that closes
without delivering any events makes the call return None — the very value
the deleted path returns — and no distinct timed-out outcome is produced. -/
theorem c8_no_timeout_counterexample :
    ready "Ready" [] = Except.ok none ∧
    ready "Ready" [deleteEvent] = Except.ok none ∧
    runLoop "Ready" [] = LoopOutcome.streamEnded :=
  ⟨rfl, rfl, rfl⟩

/-- C8 amended: there is no deadline mechanism: a watch whose stream
delivers no events (and then closes) returns None, with no timed-out
outcome anywhere in the result. -/
theorem c8_empty_stream_returns_none (expected_status : String) :
    ready expected_status [] = Except.ok none := rfl

/-- C9: create succeeds exactly when the metadata key is present with both a
non-empty namespace and a non-empty name; otherwise it raises (KeyError,
TypeError or ValueError) before the gateway request is ever built. -/
theorem c9_create_requires_identity (manifest : Manifest) :
    (∃ r, create manifest = Except.ok r) ↔
      (∃ md ns nm, manifest.metadata = some md ∧ md.namespace_ = some ns ∧
        md.name = some nm ∧ ns ≠ "" ∧ nm ≠ "") := by
  obtain ⟨meta⟩ := manifest
  cases meta with
  | none => simp [create]
  | some md =>
      obtain ⟨nameOpt, nsOpt, other⟩ := md
      cases nameOpt with
      | none =>
          cases nsOpt with
          | none => cases other <;> simp [create, metadataTruthy]
          | some ns => simp [create, metadataTruthy]
      | some nm =>
          cases nsOpt with
          | none => simp [create, metadataTruthy]
          | some ns =>
              by_cases h : ns = "" ∨ nm = ""
              · simp only [create, metadataTruthy, h]
                simp
                tauto
              · simp only [create, metadataTruthy, h]
                simp
                tauto

/-- C10: the matcher can only answer with the requested outcome name or with
no match: it never identifies a condition as any other outcome. -/
theorem c10_match_requested_or_none (c : Condition) (expected_status : String) :
    match_condition c expected_status = none ∨
    match_condition c expected_status = some expected_status := by
  unfold match_condition
  cases hE : EXPECTED_CONDITIONS expected_status with
  | none => exact Or.inl rfl
  | some ec =>
      by_cases hc : (c.reason = some ec.reason ∧ c.status = some ec.status ∧
        c.type = some ec.type)
      · exact Or.inr (if_pos hc)
      · exact Or.inl (if_neg hc)
